import Mathlib

/-
  Verification development for the Shopify admin tool server.

  The Python source is shallowly embedded: JSON values are an inductive
  type, Python exceptions are an explicit `Exc` type, fallible evaluation
  lives in `Except Exc`, and the HTTP dispatcher is abstracted by an
  oracle `HttpResponse` argument (the behaviour of the single outbound
  POST).  Each domain operation from `src/tools/*.py` is translated
  clause by clause, including its `try/except` wrapper, truthiness
  checks, `dict.get` defaults and f-string rendering.
-/

/-- JSON values as decoded by `response.json()` (Python objects:
`None`, `bool`, `int`, `str`, `list`, `dict`). -/
inductive Json where
  | null
  | bool (b : Bool)
  | num (n : Int)
  | str (s : String)
  | arr (elems : List Json)
  | obj (fields : List (String × Json))
deriving Repr

/-- A single-quote character as a string (used when rendering Python
`repr` output and exception messages). -/
def quo : String := "\x27"

namespace Json

mutual
/-- Structural equality test for JSON values.  Each constructor first
fixes the left shape, then checks the right one inside. -/
def eqb (a : Json) (b : Json) : Bool :=
  match a with
  | .null => match b with | .null => true | _ => false
  | .bool x => match b with | .bool y => x == y | _ => false
  | .num x => match b with | .num y => x == y | _ => false
  | .str x => match b with | .str y => x == y | _ => false
  | .arr xs => match b with | .arr ys => eqbElems xs ys | _ => false
  | .obj xs => match b with | .obj ys => eqbEntries xs ys | _ => false

/-- Structural equality test for element lists. -/
def eqbElems (a : List Json) (b : List Json) : Bool :=
  match a with
  | [] => b.isEmpty
  | x :: xs =>
      match b with
      | y :: ys => eqb x y && eqbElems xs ys
      | [] => false

/-- Structural equality test for entry lists. -/
def eqbEntries (a : List (String × Json)) (b : List (String × Json)) : Bool :=
  match a with
  | [] => b.isEmpty
  | e :: xs =>
      match b with
      | e2 :: ys => e.1 == e2.1 && eqb e.2 e2.2 && eqbEntries xs ys
      | [] => false
end

end Json

mutual
theorem Json.eqb_eq_true_iff : ∀ a b : Json, Json.eqb a b = true ↔ a = b
  | .null, b => by cases b <;> simp [Json.eqb]
  | .bool x, b => by cases b <;> simp [Json.eqb]
  | .num x, b => by cases b <;> simp [Json.eqb]
  | .str x, b => by cases b <;> simp [Json.eqb]
  | .arr xs, b => by
      cases b <;> simp [Json.eqb]
      exact Json.eqbElems_eq_true_iff xs _
  | .obj xs, b => by
      cases b <;> simp [Json.eqb]
      exact Json.eqbEntries_eq_true_iff xs _

theorem Json.eqbElems_eq_true_iff :
    ∀ a b : List Json, Json.eqbElems a b = true ↔ a = b
  | [], b => by cases b <;> simp [Json.eqbElems]
  | x :: xs, b => by
      cases b with
      | nil => simp [Json.eqbElems]
      | cons y ys =>
          simp [Json.eqbElems, Json.eqb_eq_true_iff x y,
            Json.eqbElems_eq_true_iff xs ys]

theorem Json.eqbEntries_eq_true_iff :
    ∀ a b : List (String × Json), Json.eqbEntries a b = true ↔ a = b
  | [], b => by cases b <;> simp [Json.eqbEntries]
  | e :: xs, b => by
      obtain ⟨k1, v1⟩ := e
      cases b with
      | nil => simp [Json.eqbEntries]
      | cons e2 ys =>
          obtain ⟨k2, v2⟩ := e2
          simp [Json.eqbEntries, Json.eqb_eq_true_iff v1 v2,
            Json.eqbEntries_eq_true_iff xs ys, and_assoc]
end

instance : DecidableEq Json := fun a b =>
  decidable_of_iff (Json.eqb a b = true) (Json.eqb_eq_true_iff a b)

namespace Json

/-- Python `type(x).__name__` for the embedded values. -/
def typeName : Json → String
  | .null => "NoneType"
  | .bool _ => "bool"
  | .num _ => "int"
  | .str _ => "str"
  | .arr _ => "list"
  | .obj _ => "dict"

/-- Python truthiness of a JSON value (`if x:`). -/
def truthy : Json → Bool
  | .null => false
  | .bool b => b
  | .num n => n != 0
  | .str s => s != ""
  | .arr xs => !xs.isEmpty
  | .obj kvs => !kvs.isEmpty

end Json

/-- First value bound to a key in an association list (Python dict
lookup; keys are unique in dicts produced by `json.loads`). -/
def lookupJ : List (String × Json) → String → Option Json
  | [], _ => none
  | (k1, v1) :: rest, k => if k1 = k then some v1 else lookupJ rest k

/-- In-place update `d[k] = v` of a Python dict: the key keeps its
position; appended if absent (unreachable in the code paths below,
which only assign to keys already looked up). -/
def setKeyJ : List (String × Json) → String → Json → List (String × Json)
  | [], k, v => [(k, v)]
  | (k1, v1) :: rest, k, v =>
      if k1 = k then (k1, v) :: rest else (k1, v1) :: setKeyJ rest k v

mutual
/-- Python `repr` of a JSON value (used when a list/dict is rendered
inside an f-string). -/
def Json.pyRepr : Json → String
  | .null => "None"
  | .bool true => "True"
  | .bool false => "False"
  | .num n => toString n
  | .str s => quo ++ s ++ quo
  | .arr xs => "[" ++ Json.pyReprList xs ++ "]"
  | .obj kvs => "\x7b" ++ Json.pyReprFields kvs ++ "\x7d"

/-- Comma-separated `repr` of list elements. -/
def Json.pyReprList : List Json → String
  | [] => ""
  | [x] => Json.pyRepr x
  | x :: xs => Json.pyRepr x ++ ", " ++ Json.pyReprList xs

/-- Comma-separated `repr` of dict entries. -/
def Json.pyReprFields : List (String × Json) → String
  | [] => ""
  | [(k, v)] => quo ++ k ++ quo ++ ": " ++ Json.pyRepr v
  | (k, v) :: kvs =>
      quo ++ k ++ quo ++ ": " ++ Json.pyRepr v ++ ", " ++ Json.pyReprFields kvs
end

/-- Python `str` of a JSON value, as interpolated by an f-string:
strings appear bare, every other value via `repr`. -/
def Json.pyStr : Json → String
  | .str s => s
  | j => j.pyRepr

/-- Python exceptions that the embedded code can raise or catch. -/
inductive Exc where
  | keyError (key : String)
  | typeError (msg : String)
  | attributeError (msg : String)
  | indexError (msg : String)
  /-- The `httpx.HTTPStatusError` from `raise_for_status` (message abstracted
  to the status code it carries). -/
  | httpStatusError (status : Nat)
  /-- The `json.JSONDecodeError` from `response.json()` on a non-JSON body. -/
  | jsonDecodeError
  /-- An explicit `raise Exception(msg)`. -/
  | raised (msg : String)
deriving Repr, DecidableEq

/-- Python `str(e)` as interpolated by `f"Error: \x7be\x7d"`:
`KeyError` renders as the quoted key, the others as their message. -/
def Exc.render : Exc → String
  | .keyError k => quo ++ k ++ quo
  | .typeError m => m
  | .attributeError m => m
  | .indexError m => m
  | .httpStatusError s => "HTTP status error " ++ toString s
  | .jsonDecodeError => "Expecting value: line 1 column 1 (char 0)"
  | .raised m => m

namespace Json

/-- Python subscript `j[k]` with a string key. -/
def pyGetItem (j : Json) (k : String) : Except Exc Json :=
  match j with
  | .obj kvs =>
      match lookupJ kvs k with
      | some v => .ok v
      | none => .error (.keyError k)
  | .arr _ => .error (.typeError "list indices must be integers or slices, not str")
  | .str _ => .error (.typeError "string indices must be integers")
  | j => .error (.typeError (quo ++ j.typeName ++ quo ++ " object is not subscriptable"))

/-- Python `j.get(k, d)` (only dicts have `.get`). -/
def pyGet (j : Json) (k : String) (d : Json) : Except Exc Json :=
  match j with
  | .obj kvs => .ok ((lookupJ kvs k).getD d)
  | j => .error (.attributeError
      (quo ++ j.typeName ++ quo ++ " object has no attribute " ++ quo ++ "get" ++ quo))

/-- Python membership test `k in j` for a string `k`. -/
def pyContains (j : Json) (k : String) : Except Exc Bool :=
  match j with
  | .obj kvs => .ok (lookupJ kvs k).isSome
  | .arr xs => .ok (xs.contains (.str k))
  | .str s => .ok (decide (k.toList <:+: s.toList))
  | j => .error (.typeError
      ("argument of type " ++ quo ++ j.typeName ++ quo ++ " is not iterable"))

/-- Python iteration `for x in j`: lists yield their elements, strings
their characters, dicts their keys. -/
def pyIter : Json → Except Exc (List Json)
  | .arr xs => .ok xs
  | .str s => .ok (s.toList.map (fun c => .str (String.singleton c)))
  | .obj kvs => .ok (kvs.map (fun kv => Json.str kv.1))
  | j => .error (.typeError (quo ++ j.typeName ++ quo ++ " object is not iterable"))

/-- Python subscript `j[0]`. -/
def pyIndex0 (j : Json) : Except Exc Json :=
  match j with
  | .arr [] => .error (.indexError "list index out of range")
  | .arr (x :: _) => .ok x
  | .str s =>
      match s.toList with
      | [] => .error (.indexError "string index out of range")
      | c :: _ => .ok (.str (String.singleton c))
  | .obj _ => .error (.keyError "0")
  | j => .error (.typeError (quo ++ j.typeName ++ quo ++ " object is not subscriptable"))

/-- Python `len(j)`. -/
def pyLen (j : Json) : Except Exc Nat :=
  match j with
  | .arr xs => .ok xs.length
  | .obj kvs => .ok kvs.length
  | .str s => .ok s.length
  | j => .error (.typeError ("object of type " ++ quo ++ j.typeName ++ quo ++ " has no len()"))

end Json
/-- The literal query/mutation string from the source (braces escaped). -/
def get_blogs_query : String :=
  "\n    query GetBlogs($first: Int!) \x7b\n      blogs(first: $first) \x7b\n        nodes \x7b\n          id\n          title\n          handle\n          updatedAt\n          commentPolicy\n          createdAt\n          templateSuffix\n          tags\n        \x7d\n      \x7d\n    \x7d\n    "

/-- The literal query/mutation string from the source (braces escaped). -/
def blog_create_mutation : String :=
  "\n    mutation BlogCreate($blog: BlogCreateInput!) \x7b\n      blogCreate(blog: $blog) \x7b\n        blog \x7b id title handle \x7d\n        userErrors \x7b message \x7d\n      \x7d\n    \x7d\n    "

/-- The literal query/mutation string from the source (braces escaped). -/
def update_menu_mutation : String :=
  "\n    mutation UpdateMenu($id: ID!, $title: String!, $handle: String!, $items: [MenuItemUpdateInput!]!) \x7b\n      menuUpdate(id: $id, title: $title, handle: $handle, items: $items) \x7b\n        menu \x7b\n          id\n          handle\n          items \x7b\n            id\n            title\n            items \x7b\n              id\n              title\n            \x7d\n          \x7d\n        \x7d\n        userErrors \x7b\n          message\n          field\n        \x7d\n      \x7d\n    \x7d\n    "

/-- The literal query/mutation string from the source (braces escaped). -/
def get_id_query : String :=
  "\n    query \x7b\n      menus(first: 1) \x7b\n        edges \x7b\n          node \x7b\n            id\n          \x7d\n        \x7d\n      \x7d\n    \x7d\n    "

/-- The literal query/mutation string from the source (braces escaped). -/
def get_menu_by_id_query : String :=
  "\n    query GetMenu($id: ID!) \x7b\n      menu(id: $id) \x7b\n        id\n        title\n        handle\n        items \x7b\n          id\n          title\n          type\n          url\n          items \x7b\n            id\n            title\n            type\n            url\n          \x7d\n        \x7d\n      \x7d\n    \x7d\n    "

/-- The literal query/mutation string from the source (braces escaped). -/
def create_product_mutation : String :=
  "\n    mutation ProductCreate($input: ProductInput!, $media: [CreateMediaInput!]) \x7b\n      productCreate(input: $input, media: $media) \x7b\n        product \x7b\n          id\n          title\n        \x7d\n        userErrors \x7b\n          field\n          message\n        \x7d\n      \x7d\n    \x7d\n    "

/-- The literal query/mutation string from the source (braces escaped). -/
def customers_list_query : String :=
  "\n    query CustomersList($first: Int, $after: String, $query: String, $sortKey: CustomerSortKeys) \x7b\n      customers(first: $first, after: $after, query: $query, sortKey: $sortKey) \x7b\n        edges \x7b\n          cursor\n          node \x7b\n            id\n            firstName\n            lastName\n            email\n            createdAt\n            updatedAt\n            numberOfOrders\n            amountSpent \x7b\n              amount\n              currencyCode\n            \x7d\n            tags\n            defaultAddress \x7b\n              address1\n              city\n              province\n              country\n              zip\n            \x7d\n          \x7d\n        \x7d\n        pageInfo \x7b\n          hasNextPage\n          endCursor\n        \x7d\n      \x7d\n    \x7d\n    "

/-- The literal query/mutation string from the source (braces escaped). -/
def customers_count_query : String :=
  "\n    query CustomersCount($query: String, $limit: Int) \x7b\n      customersCount(query: $query, limit: $limit) \x7b\n        count\n      \x7d\n    \x7d\n    "

/-- The literal query/mutation string from the source (braces escaped). -/
def orders_count_query : String :=
  "\n    query OrdersCount($query: String, $limit: Int) \x7b\n      ordersCount(query: $query, limit: $limit) \x7b\n        count\n      \x7d\n    \x7d\n    "

/-- The literal query/mutation string from the source (braces escaped). -/
def product_show_query : String :=
  "\n    query ProductShow($id: ID!, $publicationId: ID!) \x7b\n      product(id: $id) \x7b\n        id\n        title\n        publishedOnPublication(publicationId: $publicationId)\n      \x7d\n    \x7d\n    "

/-! ## Request dispatcher (`src/utils/shopify_client.py`) -/

/-- Module-level configuration constants from `utils/shopify_client.py`. -/
def SHOPIFY_STORE : String := "your-store-id.myshopify.com"

/-- The access-token constant from `utils/shopify_client.py`. -/
def SHOPIFY_TOKEN : String := "admin access token"

/-- The API-version constant from `utils/shopify_client.py`. -/
def API_VERSION : String := "2025-07"

/-- What the underlying HTTP client observes for the single POST issued
by `make_shopify_request`: the status code and, when the body is valid
JSON, its decoded value (`none` models a non-JSON body). -/
structure HttpResponse where
  status : Nat
  body : Option Json
deriving Repr, DecidableEq

/-- The outbound request that `make_shopify_request` hands to
`client.post(url, json=payload, headers=headers, timeout=30.0)`. -/
structure OutboundRequest where
  method : String
  url : String
  headers : List (String × String)
  payload : Json
  timeoutSeconds : Nat
deriving Repr, DecidableEq

/-- The `httpx` success check used by `raise_for_status`: 2xx statuses. -/
def is_success (status : Nat) : Bool := 200 ≤ status && status < 300

/-- The request body: `payload = {"query": query}` plus, when
`variables` is truthy (`if variables:`), a `"variables"` entry. -/
def shopify_request_payload (query : String) (vars : Option Json) : Json :=
  match vars with
  | some v =>
      if v.truthy then .obj [("query", .str query), ("variables", v)]
      else .obj [("query", .str query)]
  | none => .obj [("query", .str query)]

/-- The single POST constructed by `make_shopify_request`. -/
def shopify_request (query : String) (vars : Option Json) : OutboundRequest :=
  { method := "POST"
  , url := "https://" ++ SHOPIFY_STORE ++ "/admin/api/" ++ API_VERSION ++ "/graphql.json"
  , headers := [("Content-Type", "application/json"),
                ("X-Shopify-Access-Token", SHOPIFY_TOKEN)]
  , payload := shopify_request_payload query vars
  , timeoutSeconds := 30 }

/-- Function `make_shopify_request`: after the POST answered with `resp`, run
`response.raise_for_status()` then `return response.json()`.  The
`query`/`variables` arguments shape the outbound request (see
`shopify_request`) but not how the response is handled. -/
def make_shopify_request (query : String) (vars : Option Json)
    (resp : HttpResponse) : Except Exc Json :=
  let _ := shopify_request query vars
  if is_success resp.status then
    match resp.body with
    | some j => .ok j
    | none => .error .jsonDecodeError
  else .error (.httpStatusError resp.status)

/-! ## Shared operation scaffolding -/

/-- The `try: ... except Exception as e: return f"Error: \x7be\x7d"`
wrapper shared by the string-returning operations. -/
def catchToMessage (body : Except Exc String) : Except Exc String :=
  .ok (match body with
       | .ok s => s
       | .error e => "Error: " ++ e.render)

/-- Python `or` specialised to strings (used by
`"\n".join(...) or "  - No items"`). -/
def py_or_str (s d : String) : String := if s = "" then d else s

/-- Python `media or []` (used by the product mutations, whose `media`
parameter defaults to `None`). -/
def py_or_empty_list (media : Option Json) : Json :=
  match media with
  | some m => if m.truthy then m else .arr []
  | none => .arr []

/-- Left-to-right effectful map, the evaluation order of a Python
generator or `for` loop body: the first exception aborts the rest. -/
def mapME : List Json → (Json → Except Exc α) → Except Exc (List α)
  | [], _ => .ok []
  | x :: xs, f => do
      let y ← f x
      let ys ← mapME xs f
      pure (y :: ys)

/-! ## Blogs (`src/tools/blogs.py`) -/

/-- Operation `get_blogs(first_n=5)`: list blogs and format one line per blog. -/
def get_blogs (first_n : Int) (resp : HttpResponse) : Except Exc String :=
  catchToMessage (do
    let res ← make_shopify_request get_blogs_query
      (some (.obj [("first", .num first_n)])) resp
    let d ← res.pyGetItem "data"
    let bl ← d.pyGetItem "blogs"
    let blogs ← bl.pyGetItem "nodes"
    if !blogs.truthy then
      pure "No blogs found."
    else do
      let elems ← blogs.pyIter
      let lines ← mapME elems (fun b => do
        let t ← b.pyGetItem "title"
        let h ← b.pyGetItem "handle"
        let i ← b.pyGetItem "id"
        pure (t.pyStr ++ " (/" ++ h.pyStr ++ ") - ID: " ++ i.pyStr))
      pure (String.intercalate "\n" lines))

/-- Operation `blog_create(title, handle, comment_policy="MODERATED")`: dispatch
the mutation and report the created blog; `userErrors` are never
inspected. -/
def blog_create (title handle comment_policy : String)
    (resp : HttpResponse) : Except Exc String :=
  catchToMessage (do
    let res ← make_shopify_request blog_create_mutation
      (some (.obj [("blog", .obj [("title", .str title), ("handle", .str handle),
        ("commentPolicy", .str comment_policy)])])) resp
    let d ← res.pyGetItem "data"
    let bc ← d.pyGetItem "blogCreate"
    let b ← bc.pyGetItem "blog"
    let t ← b.pyGetItem "title"
    let i ← b.pyGetItem "id"
    pure ("Created blog " ++ quo ++ t.pyStr ++ quo ++ " (ID: " ++ i.pyStr ++ ")"))

/-! ## Menus (`src/tools/menus.py`) -/

/-- The variables mapping assembled by `update_menu`. -/
def update_menu_variables (menu_id title handle : String) (items : Json) : Json :=
  .obj [("id", .str menu_id), ("title", .str title),
        ("handle", .str handle), ("items", items)]

/-- One line of the `userErrors` join in `update_menu`:
`f"- Field: \x7be.get(\x27field\x27, \x27unknown\x27)\x7d, Message: \x7be[\x27message\x27]\x7d"`. -/
def update_menu_user_error_line (e : Json) : Except Exc String := do
  let f ← e.pyGet "field" (.str "unknown")
  let m ← e.pyGetItem "message"
  pure ("- Field: " ++ f.pyStr ++ ", Message: " ++ m.pyStr)

/-- Operation `update_menu(menu_id, title, handle, items)`: dispatch the mutation;
a truthy `userErrors` list is joined into one line per
`\x7bfield, message\x7d` pair. -/
def update_menu (menu_id title handle : String) (items : Json)
    (resp : HttpResponse) : Except Exc String :=
  catchToMessage (do
    let result ← make_shopify_request update_menu_mutation
      (some (update_menu_variables menu_id title handle items)) resp
    let d0 ← result.pyGet "data" (.obj [])
    let data ← d0.pyGet "menuUpdate" (.obj [])
    let ue ← data.pyGet "userErrors" .null
    if ue.truthy then do
      -- `data["userErrors"]` re-reads the key just found truthy, so it
      -- is the same value `ue`.
      let elems ← ue.pyIter
      let lines ← mapME elems update_menu_user_error_line
      pure ("Menu update failed with errors:\n" ++ String.intercalate "\n" lines)
    else do
      let menu ← data.pyGet "menu" .null
      if !menu.truthy then
        pure "Menu update returned no menu object."
      else do
        let h ← menu.pyGetItem "handle"
        let i ← menu.pyGetItem "id"
        let its ← menu.pyGetItem "items"
        let n ← its.pyLen
        pure ("✅ Updated menu " ++ quo ++ h.pyStr ++ quo ++ " (ID: " ++
          i.pyStr ++ ") with " ++ toString n ++ " top-level items."))

/-- A looked-up value is structurally smaller than the dict holding it. -/
theorem lookupJ_sizeOf {kvs : List (String × Json)} {k : String} {v : Json}
    (h : lookupJ kvs k = some v) : sizeOf v < sizeOf (Json.obj kvs) := by
  induction kvs with
  | nil => simp [lookupJ] at h
  | cons kv rest ih =>
      obtain ⟨k1, v1⟩ := kv
      rw [lookupJ] at h
      split at h
      · cases h
        simp
        omega
      · have := ih h
        simp at this ⊢
        omega

/-- The guard `if item.get("items"):` of `render_items`, as the value
recursed into when it is truthy (`item` is a dict whenever this guard
runs, since `item["title"]` already succeeded). -/
def sub_items (item : Json) : Option Json :=
  match item with
  | .obj kvs =>
      match lookupJ kvs "items" with
      | some v => if v.truthy then some v else none
      | none => none
  | _ => none

/-- A truthy `items` entry is structurally smaller than its item. -/
theorem sub_items_sizeOf {item v : Json} (h : sub_items item = some v) :
    sizeOf v < sizeOf item := by
  cases item with
  | null => exact absurd h (by simp [sub_items])
  | bool b => exact absurd h (by simp [sub_items])
  | num n => exact absurd h (by simp [sub_items])
  | str s => exact absurd h (by simp [sub_items])
  | arr xs => exact absurd h (by simp [sub_items])
  | obj kvs =>
      simp only [sub_items] at h
      split at h
      next w hl =>
        split at h
        · cases h
          exact lookupJ_sizeOf hl
        · cases h
      next hl => cases h

/-- The one display line per menu item:
`" " * indent + f"- \x7btitle\x7d (\x7btype\x7d): \x7burl or N/A\x7d"`. -/
def render_line (item : Json) (indent : Nat) : Except Exc String := do
  let t ← item.pyGetItem "title"
  let ty ← item.pyGetItem "type"
  let u ← item.pyGet "url" (.str "N/A")
  pure (String.mk (List.replicate indent ' ') ++ "- " ++ t.pyStr ++
    " (" ++ ty.pyStr ++ "): " ++ u.pyStr)

mutual
/-- The recursive `render_items(items, indent=2)` helper nested in
`get_menus`: depth-first, one line per item, recursing into truthy
`items` entries at `indent + 2`. -/
def render_items (items : Json) (indent : Nat) : Except Exc (List String) :=
  match items with
  | .arr l => render_list l indent
  | j => .error (.typeError (quo ++ j.typeName ++ quo ++ " object is not iterable"))
termination_by sizeOf items
decreasing_by
  simp <;> omega

/-- The `for item in items` loop body of `render_items`. -/
def render_list (l : List Json) (indent : Nat) : Except Exc (List String) :=
  match l with
  | [] => .ok []
  | item :: rest =>
      match render_line item indent with
      | .error e => .error e
      | .ok line =>
          match hs : sub_items item with
          | none =>
              match render_list rest indent with
              | .error e => .error e
              | .ok rls => .ok (line :: rls)
          | some sub =>
              match render_items sub (indent + 2) with
              | .error e => .error e
              | .ok sls =>
                  match render_list rest indent with
                  | .error e => .error e
                  | .ok rls => .ok (line :: (sls ++ rls))
termination_by sizeOf l
decreasing_by
  · simp <;> omega
  · have := sub_items_sizeOf hs
    simp at this ⊢ <;> omega
  · simp <;> omega
end

/-- The chain
`id_result.get("data", \x7b\x7d).get("menus", \x7b\x7d).get("edges", [])`
of `get_menus`. -/
def menus_edges_of (id_result : Json) : Except Exc Json := do
  let d ← id_result.pyGet "data" (.obj [])
  let m ← d.pyGet "menus" (.obj [])
  m.pyGet "edges" (.arr [])

/-- The chain `edges[0]["node"]["id"]` of `get_menus`. -/
def first_menu_id (edges : Json) : Except Exc Json := do
  let e0 ← edges.pyIndex0
  let n ← e0.pyGetItem "node"
  n.pyGetItem "id"

/-- The chain `menu_result.get("data", \x7b\x7d).get("menu", None)` of
`get_menus`. -/
def menu_value_of (menu_result : Json) : Except Exc Json := do
  let d ← menu_result.pyGet "data" (.obj [])
  d.pyGet "menu" .null

/-- Step 2 of `get_menus`: fetch the menu by id and format it. -/
def get_menus_step2 (menu_id : Json) (resp2 : HttpResponse) : Except Exc String := do
  let menu_result ← make_shopify_request get_menu_by_id_query
    (some (.obj [("id", menu_id)])) resp2
  let menu ← menu_value_of menu_result
  if !menu.truthy then
    pure "Menu not found or could not be fetched."
  else do
    let items ← menu.pyGet "items" (.arr [])
    let lines ← render_items items 2
    let items_str := py_or_str (String.intercalate "\n" lines) "  - No items"
    let t ← menu.pyGetItem "title"
    let h ← menu.pyGetItem "handle"
    let i ← menu.pyGetItem "id"
    pure ("Menu: " ++ t.pyStr ++ "\nHandle: " ++ h.pyStr ++ "\nID: " ++
      i.pyStr ++ "\nItems:\n" ++ items_str)

/-- The body of `get_menus`, instrumented with the number of dispatcher
calls issued (1 or 2).  `resp1` answers the menu-list query, `resp2`
the menu-by-id query. -/
def get_menus_core (resp1 resp2 : HttpResponse) : Except Exc String × Nat :=
  match make_shopify_request get_id_query none resp1 with
  | .error e => (.error e, 1)
  | .ok id_result =>
      match menus_edges_of id_result with
      | .error e => (.error e, 1)
      | .ok edges =>
          if !edges.truthy then (.ok "No menus found in the store.", 1)
          else
            match first_menu_id edges with
            | .error e => (.error e, 1)
            | .ok menu_id => (get_menus_step2 menu_id resp2, 2)

/-- Operation `get_menus()`: two sequential dispatcher calls wrapped in the
`try/except` that formats any exception as `"Error: ..."`. -/
def get_menus (resp1 resp2 : HttpResponse) : Except Exc String × Nat :=
  (catchToMessage (get_menus_core resp1 resp2).1, (get_menus_core resp1 resp2).2)

/-! ## Products (`src/tools/products.py`) -/

/-- The list comprehension `[\x7b"name": v\x7d for v in option["values"]]`. -/
def clean_values (vs : Json) : Except Exc Json := do
  let elems ← vs.pyIter
  pure (.arr (elems.map (fun v => .obj [("name", v)])))

/-- One iteration of the `productOptions` clean-up loop:
`if "values" in option: option["values"] = [\x7b"name": v\x7d ...]`,
returning the option's value after the (possible) in-place update. -/
def clean_option (opt : Json) : Except Exc Json := do
  let hasVals ← opt.pyContains "values"
  if hasVals then
    match opt with
    | .obj kvs => do
        -- `option["values"]` exists because the membership test succeeded
        let vs := (lookupJ kvs "values").getD .null
        let nv ← clean_values vs
        pure (.obj (setKeyJ kvs "values" nv))
    | .arr _ => .error (.typeError "list indices must be integers or slices, not str")
    | _ => .error (.typeError "string indices must be integers")
  else
    pure opt

/-- The whole pre-dispatch clean-up of `create_product` (the code
before the `try` block), returning the value of the caller's `product`
object after the in-place updates. -/
def clean_product (product : Json) : Except Exc Json := do
  let hasPO ← product.pyContains "productOptions"
  if hasPO then
    match product with
    | .obj kvs =>
        match (lookupJ kvs "productOptions").getD .null with
        | .arr opts => do
            -- the loop rewrites each option dict inside the list in place
            let cleaned ← mapME opts clean_option
            pure (.obj (setKeyJ kvs "productOptions" (.arr cleaned)))
        | po => do
            -- iterating a non-list yields fresh strings (dict keys or
            -- characters), so the loop body cannot reach `product`
            let elems ← po.pyIter
            let _ ← mapME elems clean_option
            pure (.obj kvs)
    | .arr _ => .error (.typeError "list indices must be integers or slices, not str")
    | _ => .error (.typeError "string indices must be integers")
  else
    pure product

/-- The variables mapping of `create_product`:
`\x7b"input": product, "media": media or []\x7d`. -/
def create_product_variables (product : Json) (media : Option Json) : Json :=
  .obj [("input", product), ("media", py_or_empty_list media)]

/-- One line of the `userErrors` join in `create_product`:
`f"- \x7be[\x27field\x27]\x7d: \x7be[\x27message\x27]\x7d"`. -/
def create_product_user_error_line (e : Json) : Except Exc String := do
  let f ← e.pyGetItem "field"
  let m ← e.pyGetItem "message"
  pure ("- " ++ f.pyStr ++ ": " ++ m.pyStr)

/-- Operation `create_product(product, media=None)`: normalise `productOptions`
(before the `try`, so its failures propagate), dispatch the mutation
and branch on `errors` / missing data / `userErrors`. -/
def create_product (product : Json) (media : Option Json)
    (resp : HttpResponse) : Except Exc String :=
  match clean_product product with
  | .error e => .error e
  | .ok cleaned =>
      catchToMessage (do
        let res ← make_shopify_request create_product_mutation
          (some (create_product_variables cleaned media)) resp
        let hasErr ← res.pyContains "errors"
        if hasErr then do
          let errs ← res.pyGetItem "errors"
          pure ("GraphQL error: " ++ errs.pyStr)
        else do
          let hasData ← res.pyContains "data"
          let malformed ←
            if !hasData then pure true
            else do
              let d ← res.pyGetItem "data"
              let hasPC ← d.pyContains "productCreate"
              pure (!hasPC)
          if malformed then
            pure ("Malformed response: " ++ res.pyStr)
          else do
            let d ← res.pyGetItem "data"
            let data ← d.pyGetItem "productCreate"
            let ue ← data.pyGetItem "userErrors"
            if ue.truthy then do
              let elems ← ue.pyIter
              let lines ← mapME elems create_product_user_error_line
              pure (String.intercalate "\n" lines)
            else do
              let p ← data.pyGetItem "product"
              let t ← p.pyGetItem "title"
              let i ← p.pyGetItem "id"
              pure ("✅ Created product " ++ quo ++ t.pyStr ++ quo ++
                " (ID: " ++ i.pyStr ++ ")"))

/-! ## Customers and orders (`src/tools/customers.py`, `src/tools/orders.py`) -/

/-- The dict comprehension
`\x7bk: v for k, v in variables.items() if v is not None\x7d`. -/
def drop_none_values (kvs : List (String × Json)) : List (String × Json) :=
  kvs.filter (fun kv => match kv.2 with | .null => false | _ => true)

/-- An optional string parameter as the Python value bound in the
pre-filter variables dict (`None` when absent). -/
def pyOptStr : Option String → Json
  | some s => .str s
  | none => .null

/-- The variables mapping assembled by `customers_list`. -/
def customers_list_variables (first : Int)
    (after query sort_key : Option String) : Json :=
  .obj (drop_none_values
    [("first", .num first), ("after", pyOptStr after),
     ("query", pyOptStr query), ("sortKey", pyOptStr sort_key)])

/-- Operation `customers_list(first=10, after=None, query=None, sort_key=None)`:
returns `res["data"]["customers"]`, or `\x7b"error": str(e)\x7d` on any
exception. -/
def customers_list (first : Int) (after query sort_key : Option String)
    (resp : HttpResponse) : Except Exc Json :=
  .ok (match (do
      let res ← make_shopify_request customers_list_query
        (some (customers_list_variables first after query sort_key)) resp
      let d ← res.pyGetItem "data"
      d.pyGetItem "customers") with
    | .ok j => j
    | .error e => .obj [("error", .str e.render)])

/-- The variables mapping assembled by `customers_count` and
`orders_count`. -/
def count_variables (query : Option String) (limit : Int) : Json :=
  .obj (drop_none_values [("query", pyOptStr query), ("limit", .num limit)])

/-- The extraction `res["data"]["customersCount"]["count"]`. -/
def customers_count_path (res : Json) : Except Exc Json := do
  let d ← res.pyGetItem "data"
  let c ← d.pyGetItem "customersCount"
  c.pyGetItem "count"

/-- The extraction `res["data"]["ordersCount"]["count"]`. -/
def orders_count_path (res : Json) : Except Exc Json := do
  let d ← res.pyGetItem "data"
  let c ← d.pyGetItem "ordersCount"
  c.pyGetItem "count"

/-- Operation `customers_count(query=None, limit=10000)`: returns the nested
`count`, or the integer `-1` on any exception. -/
def customers_count (query : Option String) (limit : Int)
    (resp : HttpResponse) : Except Exc Json :=
  .ok (match (do
      let res ← make_shopify_request customers_count_query
        (some (count_variables query limit)) resp
      customers_count_path res) with
    | .ok v => v
    | .error _ => .num (-1))

/-- Operation `orders_count(query=None, limit=10000)`: returns the nested
`count`, or the integer `-1` on any exception. -/
def orders_count (query : Option String) (limit : Int)
    (resp : HttpResponse) : Except Exc Json :=
  .ok (match (do
      let res ← make_shopify_request orders_count_query
        (some (count_variables query limit)) resp
      orders_count_path res) with
    | .ok v => v
    | .error _ => .num (-1))

/-! ## Online store (`src/tools/online_store.py`) -/

/-- Operation `is_product_published_on_publication(product_id, publication_id)`:
the one operation with no `try/except`; it re-raises dispatcher
failures and raises `Exception` itself on an `errors` envelope or a
missing data key. -/
def is_product_published_on_publication (product_id publication_id : String)
    (resp : HttpResponse) : Except Exc Json := do
  let res ← make_shopify_request product_show_query
    (some (.obj [("id", .str product_id),
      ("publicationId", .str publication_id)])) resp
  let hasErr ← res.pyContains "errors"
  if hasErr then do
    let errs ← res.pyGetItem "errors"
    throw (.raised ("GraphQL error: " ++ errs.pyStr))
  else do
    let hasData ← res.pyContains "data"
    let malformed ←
      if !hasData then pure true
      else do
        let d ← res.pyGetItem "data"
        let hasP ← d.pyContains "product"
        pure (!hasP)
    if malformed then
      throw (.raised ("Malformed response: " ++ res.pyStr))
    else do
      let d ← res.pyGetItem "data"
      let product ← d.pyGetItem "product"
      product.pyGetItem "publishedOnPublication"

/-! ## Shared test fixtures -/

/-- The request-level error envelope used across the spec's testable
properties: `\x7b"errors": [\x7b"message": X\x7d]\x7d` (and no `data`
key). -/
def errors_envelope (X : String) : Json :=
  .obj [("errors", .arr [.obj [("message", .str X)]])]

/-- Reduction of a monadic bind on a success value. -/
theorem except_bind_ok {α β : Type} (a : α) (f : α → Except Exc β) :
    (Except.ok a >>= f) = f a := rfl

/-- Reduction of a monadic bind on an exception. -/
theorem except_bind_error {α β : Type} (e : Exc) (f : α → Except Exc β) :
    ((Except.error e : Except Exc α) >>= f) = Except.error e := rfl

/-- Reduction of `pure` in the exception monad. -/
theorem except_pure {α : Type} (a : α) :
    (pure a : Except Exc α) = Except.ok a := rfl

/-! ## Claims -/

/-- C5: the dispatcher `make_shopify_request` issues a single POST with
a fixed 30-second timeout; on a non-2xx HTTP status it fails with an
error carrying the status, and on a 2xx response it parses and returns
the JSON body as the response envelope verbatim — in particular without
interpreting its `errors` field, since the body `j` is arbitrary. -/
theorem C5_dispatcher_contract (query : String) (vars : Option Json)
    (resp : HttpResponse) (j : Json) :
    (shopify_request query vars).method = "POST" ∧
    (shopify_request query vars).timeoutSeconds = 30 ∧
    (is_success resp.status = false →
      make_shopify_request query vars resp = .error (.httpStatusError resp.status)) ∧
    (is_success resp.status = true → resp.body = some j →
      make_shopify_request query vars resp = .ok j) := by
  refine ⟨rfl, rfl, ?_, ?_⟩
  · intro h
    simp [make_shopify_request, h]
  · intro h hb
    simp [make_shopify_request, h, hb]

/-- Witness for C5: a 404 fails with the status error; a 200 whose body
is an `errors` envelope is returned verbatim. -/
theorem C5_dispatcher_contract_witness :
    make_shopify_request "q" none ⟨404, some Json.null⟩ =
      .error (.httpStatusError 404) ∧
    make_shopify_request "q" none ⟨200, some (errors_envelope "X")⟩ =
      .ok (errors_envelope "X") :=
  ⟨(C5_dispatcher_contract "q" none ⟨404, some Json.null⟩ Json.null).2.2.1
      (by decide),
   (C5_dispatcher_contract "q" none ⟨200, some (errors_envelope "X")⟩
      (errors_envelope "X")).2.2.2 (by decide) rfl⟩

/-- C10: on any failure — dispatcher exception (non-2xx status or
non-JSON body) or a failing extraction of the nested count — both
`customers_count` and `orders_count` return the integer sentinel `-1`
rather than a tagged error value, while on success they return the
extracted count value itself. -/
theorem C10_count_sentinel (q : Option String) (lim : Int)
    (resp : HttpResponse) (j v : Json) (ex1 ex2 : Exc) :
    (is_success resp.status = false ∨ resp.body = none →
      customers_count q lim resp = .ok (.num (-1)) ∧
      orders_count q lim resp = .ok (.num (-1))) ∧
    (resp.body = some j → customers_count_path j = .error ex1 →
      customers_count q lim resp = .ok (.num (-1))) ∧
    (resp.body = some j → orders_count_path j = .error ex2 →
      orders_count q lim resp = .ok (.num (-1))) ∧
    (resp.body = some j → is_success resp.status = true →
      customers_count_path j = .ok v →
      customers_count q lim resp = .ok v) ∧
    (resp.body = some j → is_success resp.status = true →
      orders_count_path j = .ok v →
      orders_count q lim resp = .ok v) := by
  obtain ⟨st, body⟩ := resp
  refine ⟨?_, ?_, ?_, ?_, ?_⟩
  · rintro (h | h)
    · simp only at h
      cases body <;>
        simp [customers_count, orders_count, make_shopify_request, h,
          except_bind_ok, except_bind_error, except_pure]
    · simp only at h
      subst h
      by_cases hs : is_success st = true <;>
        simp [customers_count, orders_count, make_shopify_request, hs,
          except_bind_ok, except_bind_error, except_pure]
  · intro hb hp
    simp only at hb
    subst hb
    by_cases hs : is_success st = true <;>
      simp [customers_count, make_shopify_request, hs, except_bind_ok, except_bind_error, except_pure, hp]
  · intro hb hp
    simp only at hb
    subst hb
    by_cases hs : is_success st = true <;>
      simp [orders_count, make_shopify_request, hs, except_bind_ok, except_bind_error, except_pure, hp]
  · intro hb hs hp
    simp only at hb hs
    subst hb
    simp [customers_count, make_shopify_request, hs, except_bind_ok, except_bind_error, except_pure, hp]
  · intro hb hs hp
    simp only at hb hs
    subst hb
    simp [orders_count, make_shopify_request, hs, except_bind_ok, except_bind_error, except_pure, hp]

/-- Witness for C10: a 500 yields `-1` for both operations; a 200 whose
body lacks the expected key yields `-1`; a well-formed 200 yields the
count (42). -/
theorem C10_count_sentinel_witness :
    customers_count none 10000 ⟨500, none⟩ = .ok (.num (-1)) ∧
    orders_count none 10000 ⟨500, none⟩ = .ok (.num (-1)) ∧
    customers_count none 10000 ⟨200, some (Json.obj [])⟩ = .ok (.num (-1)) ∧
    orders_count none 10000 ⟨200, some (Json.obj [])⟩ = .ok (.num (-1)) ∧
    customers_count none 10000
      ⟨200, some (.obj [("data", .obj [("customersCount",
        .obj [("count", .num 42)])])])⟩ = .ok (.num 42) :=
  ⟨(C10_count_sentinel none 10000 ⟨500, none⟩ Json.null Json.null
      (.keyError "data") (.keyError "data")).1 (Or.inl (by decide)) |>.1,
   (C10_count_sentinel none 10000 ⟨500, none⟩ Json.null Json.null
      (.keyError "data") (.keyError "data")).1 (Or.inl (by decide)) |>.2,
   (C10_count_sentinel none 10000 ⟨200, some (Json.obj [])⟩ (Json.obj [])
      Json.null (.keyError "data") (.keyError "data")).2.1 rfl rfl,
   (C10_count_sentinel none 10000 ⟨200, some (Json.obj [])⟩ (Json.obj [])
      Json.null (.keyError "data") (.keyError "data")).2.2.1 rfl rfl,
   (C10_count_sentinel none 10000
      ⟨200, some (.obj [("data", .obj [("customersCount",
        .obj [("count", .num 42)])])])⟩
      (.obj [("data", .obj [("customersCount", .obj [("count", .num 42)])])])
      (.num 42) (.keyError "data") (.keyError "data")).2.2.2.1 rfl (by decide)
      rfl⟩

/-- Evaluation of the success check at the status used by the fixtures. -/
theorem is_success_200 : is_success 200 = true := rfl

/-- C4: `get_menus` makes two sequential dispatcher calls; when the
first call's envelope carries a falsy `edges` list it answers
"No menus found in the store." after exactly one dispatcher call
(whatever the second response would have been), and when the first call
yields a menu id but the second call's envelope carries a falsy `menu`
it answers the distinct "Menu not found or could not be fetched." after
exactly two dispatcher calls. -/
theorem C4_menu_retrieval_two_phase (j1 j2 e1 m2 : Json)
    (resp2 : HttpResponse) (mid : String) :
    (menus_edges_of j1 = .ok e1 → e1.truthy = false →
      get_menus ⟨200, some j1⟩ resp2 =
        (.ok "No menus found in the store.", 1)) ∧
    (menus_edges_of j1 = .ok e1 → e1.truthy = true →
      first_menu_id e1 = .ok (.str mid) →
      menu_value_of j2 = .ok m2 → m2.truthy = false →
      get_menus ⟨200, some j1⟩ ⟨200, some j2⟩ =
        (.ok "Menu not found or could not be fetched.", 2)) := by
  constructor
  · intro he ht
    simp [get_menus, get_menus_core, make_shopify_request, is_success_200,
      he, ht, catchToMessage]
  · intro he ht hf hm hmt
    simp [get_menus, get_menus_core, get_menus_step2, make_shopify_request,
      is_success_200, he, ht, hf, hm, hmt, catchToMessage,
      except_bind_ok, except_bind_error, except_pure]

/-- Witness for C4: an envelope with `edges = []` stops after one call;
an envelope with one edge followed by `menu = null` yields the distinct
message after two calls. -/
theorem C4_menu_retrieval_two_phase_witness :
    get_menus ⟨200, some (.obj [("data", .obj [("menus",
        .obj [("edges", .arr [])])])])⟩ ⟨500, none⟩ =
      (.ok "No menus found in the store.", 1) ∧
    get_menus
      ⟨200, some (.obj [("data", .obj [("menus", .obj [("edges",
        .arr [.obj [("node", .obj [("id", .str "gidmenu1")])]])])])])⟩
      ⟨200, some (.obj [("data", .obj [("menu", .null)])])⟩ =
      (.ok "Menu not found or could not be fetched.", 2) :=
  ⟨(C4_menu_retrieval_two_phase
      (.obj [("data", .obj [("menus", .obj [("edges", .arr [])])])])
      Json.null (.arr []) Json.null ⟨500, none⟩ "gidmenu1").1 rfl rfl,
   (C4_menu_retrieval_two_phase
      (.obj [("data", .obj [("menus", .obj [("edges",
        .arr [.obj [("node", .obj [("id", .str "gidmenu1")])]])])])])
      (.obj [("data", .obj [("menu", .null)])])
      (.arr [.obj [("node", .obj [("id", .str "gidmenu1")])]])
      Json.null ⟨200, some (.obj [("data", .obj [("menu", .null)])])⟩
      "gidmenu1").2 rfl rfl rfl rfl rfl⟩

/-- The nested `errors` list inside `errors_envelope`. -/
def errors_list (X : String) : Json := .arr [.obj [("message", .str X)]]

/-- C1 counterexample: `is_product_published_on_publication` has no
`try/except`; on a success envelope that carries a top-level `errors`
list it raises `Exception` instead of returning a result, so the
exception propagates past the operation's boundary. -/
theorem C1_counterexample :
    is_product_published_on_publication "p" "pub"
      ⟨200, some (errors_envelope "X")⟩ =
      .error (.raised ("GraphQL error: " ++ (errors_list "X").pyStr)) := rfl

/-- C1 amended: every modelled operation except
`is_product_published_on_publication` converts every failure into a
returned value — for every dispatcher behaviour (and, for
`create_product`, whenever its pre-`try` normalisation succeeds) the
result is `.ok`; `is_product_published_on_publication` instead
propagates the dispatcher's transport failure as an exception. -/
theorem C1_amended_operations_catch_failures
    (resp resp2 : HttpResponse) (fn first lim : Int)
    (t h cp mid ti hd pid pubid : String) (items product cleaned : Json)
    (media : Option Json) (after query sk q2 : Option String) :
    (get_blogs fn resp).isOk = true ∧
    (blog_create t h cp resp).isOk = true ∧
    (update_menu mid ti hd items resp).isOk = true ∧
    ((get_menus resp resp2).1).isOk = true ∧
    (customers_list first after query sk resp).isOk = true ∧
    (customers_count q2 lim resp).isOk = true ∧
    (orders_count q2 lim resp).isOk = true ∧
    (clean_product product = .ok cleaned →
      (create_product product media resp).isOk = true) ∧
    (is_success resp.status = false →
      is_product_published_on_publication pid pubid resp =
        .error (.httpStatusError resp.status)) := by
  refine ⟨rfl, rfl, rfl, rfl, rfl, rfl, rfl, ?_, ?_⟩
  · intro hcl
    simp only [create_product, hcl]
    rfl
  · intro hs
    simp [is_product_published_on_publication, make_shopify_request, hs,
      except_bind_error]

/-- Witness for C1 amended: concrete instantiation — a failing
dispatcher response is caught by `get_blogs` and by `create_product`
(whose normalisation of a plain product succeeds) but propagated by
`is_product_published_on_publication`. -/
theorem C1_amended_operations_catch_failures_witness :
    (get_blogs 5 ⟨500, none⟩).isOk = true ∧
    (create_product (.obj [("title", .str "T")]) none ⟨500, none⟩).isOk = true ∧
    is_product_published_on_publication "p" "pub" ⟨500, none⟩ =
      .error (.httpStatusError 500) :=
  ⟨(C1_amended_operations_catch_failures ⟨500, none⟩ ⟨500, none⟩ 5 10 10000
      "T" "h" "cp" "m" "t" "h" "p" "pub" Json.null
      (.obj [("title", .str "T")]) (.obj [("title", .str "T")]) none
      none none none none).1,
   (C1_amended_operations_catch_failures ⟨500, none⟩ ⟨500, none⟩ 5 10 10000
      "T" "h" "cp" "m" "t" "h" "p" "pub" Json.null
      (.obj [("title", .str "T")]) (.obj [("title", .str "T")]) none
      none none none none).2.2.2.2.2.2.2.1 rfl,
   (C1_amended_operations_catch_failures ⟨500, none⟩ ⟨500, none⟩ 5 10 10000
      "T" "h" "cp" "m" "t" "h" "p" "pub" Json.null
      (.obj [("title", .str "T")]) (.obj [("title", .str "T")]) none
      none none none none).2.2.2.2.2.2.2.2 (by decide)⟩

/-- C6: in `create_product`, plain-string entries of an option's
`values` list are each wrapped as `\x7b"name": v\x7d` before
transmission, and the transmitted variables mapping carries the
transformed list under `input → productOptions → [0] → values`. -/
theorem C6_product_options_transform (t n : String) (ss : List String)
    (media : Option Json) :
    clean_product (.obj [("title", .str t), ("productOptions",
      .arr [.obj [("name", .str n), ("values", .arr (ss.map Json.str))]])]) =
      .ok (.obj [("title", .str t), ("productOptions",
        .arr [.obj [("name", .str n), ("values",
          .arr (ss.map (fun v => Json.obj [("name", Json.str v)])))]])]) ∧
    (do
      let inp ← (create_product_variables
        (.obj [("title", .str t), ("productOptions",
          .arr [.obj [("name", .str n), ("values",
            .arr (ss.map (fun v => Json.obj [("name", Json.str v)])))]])])
        media).pyGetItem "input"
      let po ← inp.pyGetItem "productOptions"
      let o0 ← po.pyIndex0
      o0.pyGetItem "values") =
      .ok (.arr (ss.map (fun v => Json.obj [("name", Json.str v)]))) := by
  constructor
  · simp [clean_product, clean_option, clean_values, Json.pyContains,
      lookupJ, Json.pyIter, setKeyJ, mapME, except_bind_ok,
      except_bind_error, except_pure, List.map_map, Function.comp]
  · rfl

/-- C8 counterexample: with the `media` parameter left at its `None`
default, `create_product` still sends a `"media"` key — bound to the
empty list — in its variables mapping, instead of omitting the key
entirely. -/
theorem C8_counterexample :
    (create_product_variables (.obj [("title", .str "T")]) none).pyContains
      "media" = .ok true ∧
    (create_product_variables (.obj [("title", .str "T")]) none).pyGetItem
      "media" = .ok (.arr []) := ⟨rfl, rfl⟩

/-- C8 amended: the list/count operations (`customers_list`,
`customers_count`, `orders_count`) omit every optional parameter left
at its `None` sentinel from the variables mapping (a key is present iff
the parameter was supplied), but the product mutations are an
exception: `create_product` maps an absent `media` to an explicit empty
list under a `"media"` key. -/
theorem C8_amended_optional_parameter_omission (first lim : Int)
    (after query sk q2 : Option String) (product : Json) :
    (customers_list_variables first after query sk).pyContains "after" =
      .ok after.isSome ∧
    (customers_list_variables first after query sk).pyContains "query" =
      .ok query.isSome ∧
    (customers_list_variables first after query sk).pyContains "sortKey" =
      .ok sk.isSome ∧
    (customers_list_variables first after query sk).pyContains "first" =
      .ok true ∧
    (count_variables q2 lim).pyContains "query" = .ok q2.isSome ∧
    (count_variables q2 lim).pyContains "limit" = .ok true ∧
    (create_product_variables product none).pyGetItem "media" =
      .ok (.arr []) := by
  refine ⟨?_, ?_, ?_, ?_, ?_, ?_, rfl⟩ <;>
    cases after <;> cases query <;> cases sk <;> cases q2 <;> rfl

/-- C9 counterexample: `create_product` rewrites the caller's `product`
dict in place — the in-place assignment `option["values"] = ...` runs
on the dicts reachable from the caller's argument, so after the call
the caller's `product` no longer equals the value passed in. -/
theorem C9_counterexample :
    clean_product (.obj [("title", .str "T"), ("productOptions",
      .arr [.obj [("name", .str "Color"), ("values", .arr [.str "Red"])]])]) =
      .ok (.obj [("title", .str "T"), ("productOptions",
        .arr [.obj [("name", .str "Color"), ("values",
          .arr [.obj [("name", .str "Red")]])]])]) ∧
    (Json.obj [("title", .str "T"), ("productOptions",
      .arr [.obj [("name", .str "Color"), ("values",
        .arr [.obj [("name", .str "Red")]])]])]) ≠
    (Json.obj [("title", .str "T"), ("productOptions",
      .arr [.obj [("name", .str "Color"), ("values", .arr [.str "Red"])]])]) :=
  ⟨rfl, by decide⟩

/-- C9 amended: `create_product` is the one operation that mutates its
input, and it does so only through the `productOptions` normalisation —
when the product dict has no `productOptions` key, the caller's
argument value is unchanged by the call. -/
theorem C9_amended_create_product_mutation_frame
    (kvs : List (String × Json)) (h : lookupJ kvs "productOptions" = none) :
    clean_product (.obj kvs) = .ok (.obj kvs) := by
  simp [clean_product, Json.pyContains, h, except_bind_ok, except_pure]

/-- Witness for C9 amended: a product without `productOptions` passes
through the normalisation untouched. -/
theorem C9_amended_create_product_mutation_frame_witness :
    clean_product (.obj [("title", .str "T")]) =
      .ok (.obj [("title", .str "T")]) :=
  C9_amended_create_product_mutation_frame [("title", .str "T")] rfl

/-- A `userErrors` entry as returned by the API: an optional `field`
plus a `message`. -/
def mkUserError : Option String × String → Json
  | (some f, m) => .obj [("field", .str f), ("message", .str m)]
  | (none, m) => .obj [("message", .str m)]

/-- The line `update_menu` is expected to print for one error pair. -/
def update_menu_expected_line : Option String × String → String
  | (f, m) => "- Field: " ++ f.getD "unknown" ++ ", Message: " ++ m

/-- A success envelope for `menuUpdate` carrying the given
`userErrors` list. -/
def menu_update_user_errors_envelope
    (errs : List (Option String × String)) (menu : Json) : Json :=
  .obj [("data", .obj [("menuUpdate", .obj
    [("userErrors", .arr (errs.map mkUserError)), ("menu", menu)])])]

/-- Each modelled `userErrors` entry renders to its expected line, for
the whole list. -/
theorem update_menu_line_mapME (errs : List (Option String × String)) :
    mapME (errs.map mkUserError) update_menu_user_error_line =
      .ok (errs.map update_menu_expected_line) := by
  induction errs with
  | nil => rfl
  | cons e rest ih =>
      obtain ⟨f, m⟩ := e
      cases f <;>
        simp [mapME, ih, update_menu_user_error_line, mkUserError,
          update_menu_expected_line, Json.pyGet, Json.pyGetItem, lookupJ,
          Json.pyStr, except_bind_ok, except_pure]

/-- A `userErrors` entry with both keys, as `create_product` needs. -/
def mkFieldError : String × String → Json
  | (f, m) => .obj [("field", .str f), ("message", .str m)]

/-- The line `create_product` is expected to print for one error pair. -/
def create_product_expected_line : String × String → String
  | (f, m) => "- " ++ f ++ ": " ++ m

/-- A success envelope for `productCreate` carrying the given
`userErrors` list. -/
def product_create_user_errors_envelope (errs : List (String × String)) : Json :=
  .obj [("data", .obj [("productCreate", .obj
    [("userErrors", .arr (errs.map mkFieldError)), ("product", .null)])])]

/-- Each `create_product` error entry renders to its expected line, for
the whole list. -/
theorem create_product_line_mapME (errs : List (String × String)) :
    mapME (errs.map mkFieldError) create_product_user_error_line =
      .ok (errs.map create_product_expected_line) := by
  induction errs with
  | nil => rfl
  | cons e rest ih =>
      obtain ⟨f, m⟩ := e
      simp [mapME, ih, create_product_user_error_line, mkFieldError,
        create_product_expected_line, Json.pyGetItem, lookupJ,
        Json.pyStr, except_bind_ok, except_pure]

/-- A success envelope for `blogCreate` whose payload carries two
`userErrors` and a null `blog` (the shape the API returns when the
write is rejected). -/
def blog_create_user_errors_envelope : Json :=
  .obj [("data", .obj [("blogCreate", .obj [("blog", .null),
    ("userErrors", .arr [.obj [("field", .arr [.str "handle"]),
                               ("message", .str "m1")],
                         .obj [("message", .str "m2")]])])])]

/-- C2 counterexample: `blog_create` never inspects `userErrors`; on a
rejected write (null `blog`, two `userErrors`) it crashes into its
generic handler and returns a `TypeError` text that mentions neither of
the two messages. -/
theorem C2_counterexample :
    blog_create "B" "b" "MODERATED" ⟨200, some blog_create_user_errors_envelope⟩ =
      .ok ("Error: " ++ quo ++ "NoneType" ++ quo ++
        " object is not subscriptable") ∧
    ¬("m1".toList <:+: ("Error: " ++ quo ++ "NoneType" ++ quo ++
        " object is not subscriptable").toList) ∧
    ¬("m2".toList <:+: ("Error: " ++ quo ++ "NoneType" ++ quo ++
        " object is not subscriptable").toList) :=
  ⟨rfl, by decide, by decide⟩

/-- C2 amended: the write operations that do inspect `userErrors`
(`update_menu`, `create_product`) enumerate all N field/message pairs
of a non-empty `userErrors` list — one line per pair, none dropped —
but `blog_create` ignores `userErrors` entirely and returns a generic
error text instead. -/
theorem C2_amended_user_errors_enumeration
    (errs : List (Option String × String)) (ferrs : List (String × String))
    (menu : Json) (mid ti hd : String) (items : Json)
    (h1 : errs ≠ []) (h2 : ferrs ≠ []) :
    update_menu mid ti hd items
      ⟨200, some (menu_update_user_errors_envelope errs menu)⟩ =
      .ok ("Menu update failed with errors:\n" ++
        String.intercalate "\n" (errs.map update_menu_expected_line)) ∧
    create_product (.obj [("title", .str "T")]) none
      ⟨200, some (product_create_user_errors_envelope ferrs)⟩ =
      .ok (String.intercalate "\n" (ferrs.map create_product_expected_line)) ∧
    blog_create "B" "b" "MODERATED"
      ⟨200, some blog_create_user_errors_envelope⟩ =
      .ok ("Error: " ++ quo ++ "NoneType" ++ quo ++
        " object is not subscriptable") := by
  refine ⟨?_, ?_, rfl⟩
  · have htr : (Json.arr (errs.map mkUserError)).truthy = true := by
      cases errs with
      | nil => exact absurd rfl h1
      | cons e rest => simp [Json.truthy]
    simp [update_menu, update_menu_variables, make_shopify_request,
      is_success_200, menu_update_user_errors_envelope, Json.pyGet, lookupJ,
      htr, Json.pyIter, update_menu_line_mapME, catchToMessage,
      except_bind_ok, except_bind_error, except_pure]
  · have htr : (Json.arr (ferrs.map mkFieldError)).truthy = true := by
      cases ferrs with
      | nil => exact absurd rfl h2
      | cons e rest => simp [Json.truthy]
    simp [create_product, clean_product, Json.pyContains, lookupJ,
      create_product_variables, make_shopify_request, is_success_200,
      product_create_user_errors_envelope, Json.pyGetItem, Json.pyGet,
      htr, Json.pyIter, create_product_line_mapME, catchToMessage,
      except_bind_ok, except_bind_error, except_pure]

/-- Witness for C2 amended: two concrete error pairs are both listed by
`update_menu` and by `create_product`. -/
theorem C2_amended_user_errors_enumeration_witness :
    update_menu "m" "t" "h" (.arr [])
      ⟨200, some (menu_update_user_errors_envelope
        [(some "handle", "m1"), (none, "m2")] .null)⟩ =
      .ok ("Menu update failed with errors:\n" ++ String.intercalate "\n"
        ["- Field: handle, Message: m1", "- Field: unknown, Message: m2"]) ∧
    create_product (.obj [("title", .str "T")]) none
      ⟨200, some (product_create_user_errors_envelope
        [("title", "too long"), ("handle", "taken")])⟩ =
      .ok (String.intercalate "\n" ["- title: too long", "- handle: taken"]) :=
  ⟨(C2_amended_user_errors_enumeration [(some "handle", "m1"), (none, "m2")]
      [("title", "too long"), ("handle", "taken")] .null "m" "t" "h"
      (.arr []) (by simp) (by simp)).1,
   (C2_amended_user_errors_enumeration [(some "handle", "m1"), (none, "m2")]
      [("title", "too long"), ("handle", "taken")] .null "m" "t" "h"
      (.arr []) (by simp) (by simp)).2.1⟩

/-- Any string is an infix of an enclosing concatenation. -/
theorem infix_of_append (a b c : String) :
    b.toList <:+: (a ++ b ++ c).toList :=
  ⟨a.toList, c.toList, by simp [String.toList, String.data_append]⟩

/-- C3 counterexample: on the envelope
`\x7b"errors": [\x7b"message": "X"\x7d]\x7d` (and no `data` key),
`get_blogs` does not quote the message — it crashes on the missing
`data` key and returns `Error: 'data'`, which does not contain "X". -/
theorem C3_counterexample :
    get_blogs 5 ⟨200, some (errors_envelope "X")⟩ =
      .ok ("Error: " ++ quo ++ "data" ++ quo) ∧
    ¬("X".toList <:+: ("Error: " ++ quo ++ "data" ++ quo).toList) :=
  ⟨rfl, by decide⟩

/-- C3 amended: only the operations that explicitly guard on a
top-level `errors` key quote the error message.  For any message `X`:
`create_product` returns a `GraphQL error:` text containing `X` without
raising, and `is_product_published_on_publication` raises an exception
whose text contains `X`; but `get_blogs` (which subscripts `data`
directly) returns the generic `Error: 'data'` text that does not quote
`X`. -/
theorem C3_amended_top_level_errors (X : String) (fn : Int) :
    create_product (.obj [("title", .str "T")]) none
      ⟨200, some (errors_envelope X)⟩ =
      .ok ("GraphQL error: " ++ (errors_list X).pyStr) ∧
    X.toList <:+: ("GraphQL error: " ++ (errors_list X).pyStr).toList ∧
    get_blogs fn ⟨200, some (errors_envelope X)⟩ =
      .ok ("Error: " ++ quo ++ "data" ++ quo) ∧
    is_product_published_on_publication "p" "pub"
      ⟨200, some (errors_envelope X)⟩ =
      .error (.raised ("GraphQL error: " ++ (errors_list X).pyStr)) := by
  refine ⟨rfl, ?_, rfl, rfl⟩
  have heq : "GraphQL error: " ++ (errors_list X).pyStr =
      ("GraphQL error: [" ++ "\x7b" ++ quo ++ "message" ++ quo ++ ": " ++ quo)
        ++ X ++ (quo ++ "\x7d" ++ "]") := by
    simp [errors_list, Json.pyStr, Json.pyRepr, Json.pyReprList,
      Json.pyReprFields, quo, ← String.append_assoc]
    simp [String.append_assoc]
  rw [heq]
  exact infix_of_append _ X _

/-- The (possible) nested entry is no bigger than its item. -/
theorem sub_items_sizeOf_le (item : Json) :
    sizeOf (sub_items item) ≤ sizeOf item := by
  cases hs : sub_items item with
  | none => cases item <;> simp <;> omega
  | some v =>
      have := sub_items_sizeOf hs
      simp
      omega

/-- The (possible) nested entry of the head item is smaller than the
whole list. -/
theorem sub_items_cons_bound (x : Json) (rest : List Json) :
    sizeOf (sub_items x) < sizeOf (x :: rest) := by
  have := sub_items_sizeOf_le x
  simp
  omega

mutual
/-- Number of nodes a successful render of a menu-item tree visits
(one display line each): one per list element, plus the nodes of a
truthy nested `items` entry. -/
def count_nodes : Json → Nat
  | .arr l => count_list l
  | _ => 0
termination_by items => sizeOf items
decreasing_by
  simp <;> omega

/-- List version of `count_nodes`. -/
def count_list : List Json → Nat
  | [] => 0
  | item :: rest => 1 + count_sub (sub_items item) + count_list rest
termination_by l => sizeOf l
decreasing_by
  · exact sub_items_cons_bound _ _
  · simp <;> omega

/-- Node count of the (possible) nested entry. -/
def count_sub : Option Json → Nat
  | some s => count_nodes s
  | none => 0
termination_by o => sizeOf o
decreasing_by
  simp <;> omega
end

/-- Auxiliary strong induction on structural size: a successful render
produces exactly one line per node. -/
theorem render_length_bounded (n : Nat) :
    (∀ items ind lines, sizeOf items ≤ n →
      render_items items ind = .ok lines → lines.length = count_nodes items) ∧
    (∀ l ind lines, sizeOf l ≤ n →
      render_list l ind = .ok lines → lines.length = count_list l) := by
  induction n using Nat.strong_induction_on with
  | _ n ih =>
    constructor
    · intro items ind lines hsz h
      cases items with
      | arr l =>
          simp only [render_items] at h
          have hlt : sizeOf l < n := by
            simp at hsz
            omega
          simp only [count_nodes]
          exact (ih (sizeOf l) hlt).2 l ind lines le_rfl h
      | null => simp [render_items] at h
      | bool b => simp [render_items] at h
      | num m => simp [render_items] at h
      | str s => simp [render_items] at h
      | obj kvs => simp [render_items] at h
    · intro l ind lines hsz h
      cases l with
      | nil =>
          simp only [render_list] at h
          injection h with h2
          subst h2
          simp [count_list]
      | cons item rest =>
          have hrestlt : sizeOf rest < n := by
            simp at hsz
            omega
          simp only [render_list] at h
          split at h
          · exact absurd h (by simp)
          · rename_i line hline
            split at h
            · rename_i hsub
              split at h
              · exact absurd h (by simp)
              · rename_i rls hrest
                injection h with h2
                subst h2
                have e2 := (ih (sizeOf rest) hrestlt).2 rest ind rls le_rfl hrest
                simp [count_list, hsub, count_sub, e2]
                omega
            · rename_i sub hsub
              split at h
              · exact absurd h (by simp)
              · rename_i sls hsubr
                split at h
                · exact absurd h (by simp)
                · rename_i rls hrest
                  injection h with h2
                  subst h2
                  have hsublt : sizeOf sub < n := by
                    have h1 := sub_items_sizeOf hsub
                    simp at hsz
                    omega
                  have e1 := (ih (sizeOf sub) hsublt).1 sub (ind + 2) sls
                    le_rfl hsubr
                  have e2 := (ih (sizeOf rest) hrestlt).2 rest ind rls
                    le_rfl hrest
                  simp [count_list, hsub, count_sub, e1, e2]
                  omega

/-- C7: menu tree rendering produces exactly one display line per node
via depth-first traversal (for successful renders of arbitrary
nesting); a nested child list is rendered at `indent + 2`, one indent
level deeper than its parent line, which itself starts with exactly its
own indent; and the empty top-level items list renders to no lines, so
the joined text falls back to the placeholder "  - No items". -/
theorem C7_render_items_shape (items sub item : Json) (ind : Nat)
    (lines sls rls : List String) (line : String) (rest : List Json) :
    (render_items items ind = .ok lines → lines.length = count_nodes items) ∧
    (render_line item ind = .ok line → sub_items item = some sub →
      render_items sub (ind + 2) = .ok sls → render_list rest ind = .ok rls →
      render_list (item :: rest) ind = .ok (line :: (sls ++ rls))) ∧
    (render_line item ind = .ok line →
      ∃ tail, line = String.mk (List.replicate ind ' ') ++ "- " ++ tail) ∧
    render_items (.arr []) ind = .ok [] ∧
    py_or_str (String.intercalate "\n" []) "  - No items" = "  - No items" := by
  refine ⟨?_, ?_, ?_, ?_, rfl⟩
  · intro h
    exact (render_length_bounded (sizeOf items)).1 items ind lines le_rfl h
  · intro hline hsub hsubr hrest
    simp only [render_list, hline, hsub, hsubr, hrest]
    split
    · rename_i hsub2
      rw [hsub] at hsub2
      cases hsub2
    · rename_i sub2 hsub2
      rw [hsub] at hsub2
      injection hsub2 with h3
      subst h3
      simp [hsubr]
  · intro hline
    rcases ht : item.pyGetItem "title" with e | t
    · simp [render_line, ht, except_bind_error] at hline
    · rcases hty : item.pyGetItem "type" with e | ty
      · simp [render_line, ht, hty, except_bind_ok, except_bind_error] at hline
      · rcases hu : item.pyGet "url" (.str "N/A") with e | u
        · simp [render_line, ht, hty, hu, except_bind_ok,
            except_bind_error] at hline
        · refine ⟨t.pyStr ++ " (" ++ ty.pyStr ++ "): " ++ u.pyStr, ?_⟩
          simp only [render_line, ht, hty, hu, except_bind_ok,
            except_pure] at hline
          injection hline with h2
          rw [← h2]
          simp [String.append_assoc]
  · simp [render_items, render_list]

/-- The nested child of the spec's example menu item. -/
def menu_child_item : Json := .obj [("title", .str "Sub"), ("type", .str "PAGE")]

/-- The spec's example menu item: "Home" with one nested child. -/
def menu_home_item : Json :=
  .obj [("title", .str "Home"), ("type", .str "FRONTPAGE"), ("url", .str "/"),
        ("items", .arr [menu_child_item])]

/-- Witness for C7: the two-node example tree renders to exactly two
lines, the child one indent level deeper, and the parent line starts
with its own indent. -/
theorem C7_render_items_shape_witness :
    [String.mk (List.replicate 2 ' ') ++ "- " ++ "Home" ++ " (" ++
       "FRONTPAGE" ++ "): " ++ "/",
     String.mk (List.replicate 4 ' ') ++ "- " ++ "Sub" ++ " (" ++
       "PAGE" ++ "): " ++ "N/A"].length = count_nodes (.arr [menu_home_item]) ∧
    render_list [menu_home_item] 2 =
      .ok ((String.mk (List.replicate 2 ' ') ++ "- " ++ "Home" ++ " (" ++
          "FRONTPAGE" ++ "): " ++ "/") ::
        ([String.mk (List.replicate 4 ' ') ++ "- " ++ "Sub" ++ " (" ++
           "PAGE" ++ "): " ++ "N/A"] ++ [])) ∧
    (∃ tail, (String.mk (List.replicate 2 ' ') ++ "- " ++ "Home" ++ " (" ++
        "FRONTPAGE" ++ "): " ++ "/") =
      String.mk (List.replicate 2 ' ') ++ "- " ++ tail) := by
  have hline : render_line menu_home_item 2 =
      .ok (String.mk (List.replicate 2 ' ') ++ "- " ++ "Home" ++ " (" ++
        "FRONTPAGE" ++ "): " ++ "/") := by
    simp [render_line, menu_home_item, Json.pyGetItem, Json.pyGet, lookupJ,
      Json.pyStr, except_bind_ok, except_pure]
  have hsub : sub_items menu_home_item = some (.arr [menu_child_item]) := rfl
  have hsubr : render_items (.arr [menu_child_item]) (2 + 2) =
      .ok [String.mk (List.replicate 4 ' ') ++ "- " ++ "Sub" ++ " (" ++
        "PAGE" ++ "): " ++ "N/A"] := by
    simp [render_items, render_list, render_line, sub_items, menu_child_item,
      Json.pyGetItem, Json.pyGet, lookupJ, Json.pyStr, Json.pyRepr,
      except_bind_ok, except_pure]
  have hrest : render_list ([] : List Json) 2 = .ok [] := by
    simp [render_list]
  have hall : render_items (.arr [menu_home_item]) 2 =
      .ok [String.mk (List.replicate 2 ' ') ++ "- " ++ "Home" ++ " (" ++
             "FRONTPAGE" ++ "): " ++ "/",
           String.mk (List.replicate 4 ' ') ++ "- " ++ "Sub" ++ " (" ++
             "PAGE" ++ "): " ++ "N/A"] := by
    simp [render_items, render_list, render_line, sub_items, menu_home_item,
      menu_child_item, Json.pyGetItem, Json.pyGet, lookupJ, Json.pyStr,
      Json.pyRepr, Json.truthy, except_bind_ok, except_pure]
  exact ⟨(C7_render_items_shape (.arr [menu_home_item])
      (.arr [menu_child_item]) menu_home_item 2
      [String.mk (List.replicate 2 ' ') ++ "- " ++ "Home" ++ " (" ++
         "FRONTPAGE" ++ "): " ++ "/",
       String.mk (List.replicate 4 ' ') ++ "- " ++ "Sub" ++ " (" ++
         "PAGE" ++ "): " ++ "N/A"]
      [String.mk (List.replicate 4 ' ') ++ "- " ++ "Sub" ++ " (" ++
         "PAGE" ++ "): " ++ "N/A"] []
      (String.mk (List.replicate 2 ' ') ++ "- " ++ "Home" ++ " (" ++
        "FRONTPAGE" ++ "): " ++ "/") []).1 hall,
    (C7_render_items_shape (.arr [menu_home_item])
      (.arr [menu_child_item]) menu_home_item 2
      [String.mk (List.replicate 2 ' ') ++ "- " ++ "Home" ++ " (" ++
         "FRONTPAGE" ++ "): " ++ "/",
       String.mk (List.replicate 4 ' ') ++ "- " ++ "Sub" ++ " (" ++
         "PAGE" ++ "): " ++ "N/A"]
      [String.mk (List.replicate 4 ' ') ++ "- " ++ "Sub" ++ " (" ++
         "PAGE" ++ "): " ++ "N/A"] []
      (String.mk (List.replicate 2 ' ') ++ "- " ++ "Home" ++ " (" ++
        "FRONTPAGE" ++ "): " ++ "/") []).2.1 hline hsub hsubr hrest,
    (C7_render_items_shape (.arr [menu_home_item])
      (.arr [menu_child_item]) menu_home_item 2
      [String.mk (List.replicate 2 ' ') ++ "- " ++ "Home" ++ " (" ++
         "FRONTPAGE" ++ "): " ++ "/",
       String.mk (List.replicate 4 ' ') ++ "- " ++ "Sub" ++ " (" ++
         "PAGE" ++ "): " ++ "N/A"]
      [String.mk (List.replicate 4 ' ') ++ "- " ++ "Sub" ++ " (" ++
         "PAGE" ++ "): " ++ "N/A"] []
      (String.mk (List.replicate 2 ' ') ++ "- " ++ "Home" ++ " (" ++
        "FRONTPAGE" ++ "): " ++ "/") []).2.2.1 hline⟩
